import Mathlib

/-!
Shallow embedding of the `lg_monitor` coordinator
(`custom_components/lg_monitor/coordinator.py`).

Conventions of the embedding:
* Python machine floats are modelled by `ℚ`; `round` (banker's rounding,
  half to even) is `pyRound`, `round(x, 3)` is `pyRound3`, `int()` is
  `pyTrunc`, `x % 1.0` is `pyMod1`.
* Byte strings are `List ℕ` with every element `< 256` stated as a
  hypothesis where it matters.
* `random.choice(xs)` is modelled by an explicit oracle argument
  `rnd : ℕ` selecting `xs[rnd % len(xs)]`.
* The wall clock (`dt_util.utcnow()`) and the monotonic clock
  (`time.monotonic()`) are passed in as explicit arguments `ts : ℕ` and
  `mono : ℚ`.
* The Home Assistant state machine lookup (`hass.states.get` inside
  `_get_entity_colour`) is an external collaborator; it enters the
  embedding as a function argument `getColour : String → Option RGB`
  giving each entity's resolved colour, already brightness-folded.
* `homeassistant.util.color.color_RGB_to_hsv` / `color_hsv_to_RGB` and
  the underlying `colorsys` conversions are embedded from their sources.
-/

/-- RGB triple, channels as integers. -/
abbrev RGB := ℤ × ℤ × ℤ

/-- Python `round` on a rational: round half to even (banker's rounding). -/
def pyRound (q : ℚ) : ℤ :=
  if q - ⌊q⌋ < 1/2 then ⌊q⌋
  else if (1:ℚ)/2 < q - ⌊q⌋ then ⌊q⌋ + 1
  else if ⌊q⌋ % 2 = 0 then ⌊q⌋ else ⌊q⌋ + 1

/-- Python `round(x, 3)` on a rational. -/
def pyRound3 (q : ℚ) : ℚ := (pyRound (q * 1000) : ℚ) / 1000

/-- Python `int()` applied to a float: truncation toward zero. -/
def pyTrunc (q : ℚ) : ℤ := if q < 0 then -⌊-q⌋ else ⌊q⌋

/-- Python `x % 1.0` for a float `x`. -/
def pyMod1 (q : ℚ) : ℚ := q - ⌊q⌋

/-- `max(0, min(255, n))`, the channel clamp used throughout the source. -/
def clamp255 (n : ℤ) : ℤ := max 0 (min 255 n)

/-- ASCII lowercasing of one character; the strategy strings the
    configuration admits are ASCII, where Python `str.lower` acts like this. -/
def lowerChar (c : Char) : Char :=
  if 65 ≤ c.toNat ∧ c.toNat ≤ 90 then Char.ofNat (c.toNat + 32) else c

/-- Python `str.lower` on an ASCII string. -/
def strLower (s : String) : String := String.mk (s.data.map lowerChar)

/-- Lowercase hex digit for a value `< 16` (as in Python `"%02x"`). -/
def hexDigit (n : ℕ) : Char := Char.ofNat (if n < 10 then 48 + n else 87 + n)

/-- Two lowercase hex digits of one byte, as in `f"{r:02x}"`. -/
def byteToHex (b : ℕ) : List Char := [hexDigit (b / 16), hexDigit (b % 16)]

/-- The 6-character colour string `f"{r:02x}{g:02x}{b:02x}"` built by
    `_async_handle_frame`. -/
def colourHex (r g b : ℕ) : String :=
  String.mk (byteToHex r ++ byteToHex g ++ byteToHex b)

/-- Value of a hex digit character, as accepted by Python `int(s, 16)`
    and `bytes.fromhex`. -/
def hexVal (c : Char) : Option ℕ :=
  if 48 ≤ c.toNat ∧ c.toNat ≤ 57 then some (c.toNat - 48)
  else if 97 ≤ c.toNat ∧ c.toNat ≤ 102 then some (c.toNat - 87)
  else if 65 ≤ c.toNat ∧ c.toNat ≤ 70 then some (c.toNat - 55)
  else none

/-- Python `bytes.fromhex` on a whitespace-free string: consume hex-digit
    pairs; fail on an odd count or a non-hex character. -/
def fromHexChars : List Char → Option (List ℕ)
  | [] => some []
  | [_] => none
  | c1 :: c2 :: rest =>
    match hexVal c1, hexVal c2, fromHexChars rest with
    | some h, some l, some t => some ((16 * h + l) :: t)
    | _, _, _ => none

/-- The decoding loop of `_async_handle_frame`: consume 3-byte groups in
    order, one 6-hex-character colour string per group. -/
def decodeFrame : List ℕ → List String
  | r :: g :: b :: rest => colourHex r g b :: decodeFrame rest
  | _ => []

/-- `_publish_frame_bytes`: re-encode a frame of hex colour strings to the
    raw byte payload; any parse failure aborts the publish (returns `none`). -/
def publish_frame_bytes : List String → Option (List ℕ)
  | [] => some []
  | col :: rest =>
    match fromHexChars col.data, publish_frame_bytes rest with
    | some b, some t => some (b ++ t)
    | _, _ => none

/-- `_hex_to_rgb`: strip whitespace, strip leading `#`, lowercase,
    right-justify to 6 with `0`, then parse three hex pairs; any failure
    yields `(0, 0, 0)`. -/
def hex_to_rgb (colour : String) : RGB :=
  let cs0 := ((colour.data.dropWhile Char.isWhitespace).reverse.dropWhile
      Char.isWhitespace).reverse.dropWhile (fun c => c = '#')
  let cs1 := cs0.map lowerChar
  let cs := if cs1.length < 6 then List.replicate (6 - cs1.length) '0' ++ cs1 else cs1
  match cs with
  | c0 :: c1 :: c2 :: c3 :: c4 :: c5 :: _ =>
    match hexVal c0, hexVal c1, hexVal c2, hexVal c3, hexVal c4, hexVal c5 with
    | some a, some b, some c, some d, some e, some f =>
      ((16 * a + b : ℕ), (16 * c + d : ℕ), (16 * e + f : ℕ))
    | _, _, _, _, _, _ => (0, 0, 0)
  | _ => (0, 0, 0)

/-- `colorsys.rgb_to_hsv` (inputs and outputs in `[0, 1]`). -/
def rgb_to_hsv (r g b : ℚ) : ℚ × ℚ × ℚ :=
  let maxc := max r (max g b)
  let minc := min r (min g b)
  let v := maxc
  if minc = maxc then (0, 0, v)
  else
    let rangec := maxc - minc
    let s := rangec / maxc
    let rc := (maxc - r) / rangec
    let gc := (maxc - g) / rangec
    let bc := (maxc - b) / rangec
    let h := if r = maxc then bc - gc else if g = maxc then 2 + rc - bc else 4 + gc - rc
    (pyMod1 (h / 6), s, v)

/-- `colorsys.hsv_to_rgb` (inputs and outputs in `[0, 1]`). -/
def hsv_to_rgb (h s v : ℚ) : ℚ × ℚ × ℚ :=
  if s = 0 then (v, v, v)
  else
    let i0 := pyTrunc (h * 6)
    let f := h * 6 - (i0 : ℚ)
    let p := v * (1 - s)
    let q := v * (1 - s * f)
    let t := v * (1 - s * (1 - f))
    let i := i0 % 6
    if i = 0 then (v, t, p)
    else if i = 1 then (q, v, p)
    else if i = 2 then (p, v, t)
    else if i = 3 then (p, q, v)
    else if i = 4 then (t, p, v)
    else (v, p, q)

/-- `homeassistant.util.color.color_RGB_to_hsv`: hue in `[0, 360]`,
    saturation and value in `[0, 100]`, each rounded to 3 decimals. -/
def color_RGB_to_hsv (r g b : ℤ) : ℚ × ℚ × ℚ :=
  let f := rgb_to_hsv ((r : ℚ) / 255) ((g : ℚ) / 255) ((b : ℚ) / 255)
  (pyRound3 (f.1 * 360), pyRound3 (f.2.1 * 100), pyRound3 (f.2.2 * 100))

/-- `homeassistant.util.color.color_hsv_to_RGB`. -/
def color_hsv_to_RGB (h s v : ℚ) : ℤ × ℤ × ℤ :=
  let f := hsv_to_rgb (h / 360) (s / 100) (v / 100)
  (pyRound (f.1 * 255), pyRound (f.2.1 * 255), pyRound (f.2.2 * 255))

/-- The calibration knobs snapshotted by `LgMonitorCoordinator.__init__`
    (already clamped there: cutoffs to `[0, 255]`, gains to `≥ 0`,
    temperature shift to `[-1, 1]`). -/
structure CalibSettings where
  temperature_shift : ℚ
  saturation_gain : ℚ
  brightness_gain : ℚ
  cutoff_red : ℤ
  cutoff_green : ℤ
  cutoff_blue : ℤ
  brightness_cutoff : ℤ
deriving DecidableEq

/-- Temperature-shift stage of `apply_calibration` (acts on red and blue). -/
def temp_stage (shift : ℚ) (r b : ℤ) : ℤ × ℤ :=
  if shift ≠ 0 then
    if 0 < shift then
      (clamp255 (pyRound ((r : ℚ) * (1 + shift))), clamp255 (pyRound ((b : ℚ) * (1 - shift))))
    else
      let cool := |shift|
      (clamp255 (pyRound ((r : ℚ) * (1 - cool))), clamp255 (pyRound ((b : ℚ) * (1 + cool))))
  else (r, b)

/-- `apply_calibration` up to (and excluding) the cutoff checks: input
    clamp, temperature shift, HSV gain stage. -/
def pre_cutoff (st : CalibSettings) (rgb : RGB) : RGB :=
  let r0 := clamp255 rgb.1
  let g0 := clamp255 rgb.2.1
  let b0 := clamp255 rgb.2.2
  let rb := temp_stage st.temperature_shift r0 b0
  let hsv := color_RGB_to_hsv rb.1 g0 rb.2
  let s := max 0 (min 100 (hsv.2.1 * st.saturation_gain))
  let v := max 0 (min 100 (hsv.2.2 * st.brightness_gain))
  color_hsv_to_RGB hsv.1 s v

/-- The two cutoff stages of `apply_calibration`: per-channel cutoffs, then
    the overall brightness cutoff. -/
def cutoff_stage (st : CalibSettings) (rgb : RGB) : RGB :=
  let r := if rgb.1 < st.cutoff_red then 0 else rgb.1
  let g := if rgb.2.1 < st.cutoff_green then 0 else rgb.2.1
  let b := if rgb.2.2 < st.cutoff_blue then 0 else rgb.2.2
  if st.brightness_cutoff ≠ 0 ∧ max r (max g b) < st.brightness_cutoff then (0, 0, 0)
  else (r, g, b)

/-- `LgMonitorCoordinator.apply_calibration`. -/
def apply_calibration (st : CalibSettings) (rgb : RGB) : RGB :=
  cutoff_stage st (pre_cutoff st rgb)

/-- `_aggregate_colour`; `rnd` is the oracle index for `random.choice`. -/
def aggregate_colour (rnd : ℕ) (colours : List RGB) (strategy : String) : Option RGB :=
  match colours with
  | [] => none
  | c :: cs =>
    let strat := strLower (if strategy = "" then "average" else strategy)
    if strat = "random" then some ((c :: cs).getD (rnd % (c :: cs).length) c)
    else if strat = "dominant" then
      some (cs.foldl (fun best x =>
        if best.1 + best.2.1 + best.2.2 < x.1 + x.2.1 + x.2.2 then x else best) c)
    else
      let n : ℚ := ((c :: cs).length : ℚ)
      some (pyRound ((((c :: cs).map (fun x => x.1)).sum : ℚ) / n),
            pyRound ((((c :: cs).map (fun x => x.2.1)).sum : ℚ) / n),
            pyRound ((((c :: cs).map (fun x => x.2.2)).sum : ℚ) / n))

/-- `_rgb_to_brightness`. -/
def rgb_to_brightness (colour : RGB) : ℤ :=
  clamp255 (max colour.1 (max colour.2.1 colour.2.2))

/-- `_rgb_intensity_to_service`: separate a colour into a full-intensity
    direction and a max-channel brightness. -/
def rgb_intensity_to_service (rgb : RGB) : RGB × ℤ :=
  let r := clamp255 rgb.1
  let g := clamp255 rgb.2.1
  let b := clamp255 rgb.2.2
  let brightness := max r (max g b)
  if brightness ≤ 0 then ((0, 0, 0), 0)
  else
    let scale : ℚ := 255 / (brightness : ℚ)
    ((clamp255 (pyRound ((r : ℚ) * scale)),
      clamp255 (pyRound ((g : ℚ) * scale)),
      clamp255 (pyRound ((b : ℚ) * scale))), brightness)

/-- The service-call payload fields this core puts in `service_data`. -/
structure ServiceData where
  entity_id : String
  rgb_color : Option RGB
  brightness : Option ℤ
  transition : Option ℚ
deriving DecidableEq

/-- `LightServiceCommand` dataclass: one queued light service call. -/
structure LightServiceCommand where
  service : String
  data : ServiceData
deriving DecidableEq

/-- `_turn_off_light` for a single entity: the command it enqueues. -/
def turn_off_light (tr : ℚ) (entity_id : String) : LightServiceCommand :=
  { service := "turn_off",
    data := { entity_id := entity_id, rgb_color := none, brightness := none,
              transition := if 0 < tr then some tr else none } }

/-- `_call_light_intensity`: the command it enqueues for one entity
    (`tr` is the configured transition duration). -/
def call_light_intensity (tr : ℚ) (entity_id : String) (colour : RGB) : LightServiceCommand :=
  let rs := rgb_intensity_to_service colour
  if rs.2 ≤ 0 then turn_off_light tr entity_id
  else
    { service := "turn_on",
      data := { entity_id := entity_id, rgb_color := some rs.1, brightness := some rs.2,
                transition := if 0 < tr then some tr else none } }

/-- The dispatcher state: `_pending_light_commands` (a dict, so one pending
    command per entity), `_queued_entities` (a set), `_command_queue`
    (a FIFO of entity ids), generic in the command payload type. -/
structure DispatchState (Cmd : Type) where
  pending_light_commands : String → Option Cmd
  queued_entities : List String
  command_queue : List String

/-- `_queue_light_service`: overwrite the pending command; push the entity
    id onto the FIFO only if it is not already queued. -/
def queue_light_service {Cmd : Type} (s : DispatchState Cmd) (entity_id : String)
    (command : Cmd) : DispatchState Cmd :=
  let pending := fun e => if e = entity_id then some command else s.pending_light_commands e
  if entity_id ∈ s.queued_entities then
    { s with pending_light_commands := pending }
  else
    { pending_light_commands := pending,
      queued_entities := entity_id :: s.queued_entities,
      command_queue := s.command_queue ++ [entity_id] }

/-- One iteration of `_async_command_worker`: block (`none`) on an empty
    queue; otherwise pop the front entity, discard it from the set, pop its
    pending command, and issue at most one outbound call with it. -/
def command_worker_step {Cmd : Type} (s : DispatchState Cmd) :
    Option (DispatchState Cmd × Option (String × Cmd)) :=
  match s.command_queue with
  | [] => none
  | entity_id :: rest =>
    let command := s.pending_light_commands entity_id
    some ({ pending_light_commands := fun e =>
              if e = entity_id then none else s.pending_light_commands e,
            queued_entities := s.queued_entities.erase entity_id,
            command_queue := rest },
          command.map (fun c => (entity_id, c)))

/-- Representation invariant of the dispatcher: the FIFO has no duplicate
    entity and mirrors the `_queued_entities` set. -/
def DispatchInv {Cmd : Type} (s : DispatchState Cmd) : Prop :=
  s.command_queue.Nodup ∧ s.queued_entities.Nodup ∧
    ∀ e, e ∈ s.command_queue ↔ e ∈ s.queued_entities

/-- `LightGroup` dataclass. -/
structure LightGroup where
  name : String
  entities : List String
  led_indices : List ℕ
  strategy : String
deriving DecidableEq

/-- `LgFrameState` dataclass. -/
structure LgFrameState where
  colours : List String
  updated_at : ℕ
  payload_len : ℕ
  led_count : ℕ
deriving DecidableEq

/-- `MODE_LISTEN` from `const.py`. -/
def MODE_LISTEN : String := "listen"

/-- `MODE_BROADCAST` from `const.py`. -/
def MODE_BROADCAST : String := "broadcast"

/-- The coordinator's mutable attributes touched by frame handling, plus
    the configuration snapshot taken in `__init__`. -/
structure CoordState where
  command_topic : String
  state_topic : String
  led_in_topic : String
  led_out_topic : String
  led_count : ℤ
  brightness_levels : ℤ
  sync_interval : ℚ
  command_spacing : ℚ
  transition : ℚ
  calib : CalibSettings
  state_enabled : Bool
  mode : String
  groups : List LightGroup
  frame : Option LgFrameState
  group_rgb : List (Option RGB)
  group_brightness : List (Option ℤ)
  last_listen_update : List ℚ
  last_groups_signal : ℚ
deriving DecidableEq

/-- `_dispatch_groups_signal`: throttled "groups updated" signal; returns
    the new state and whether the signal fired. -/
def dispatch_groups_signal (now : ℚ) (force : Bool) (s : CoordState) : CoordState × Bool :=
  if force = true ∨ s.sync_interval ≤ 0 ∨ s.sync_interval ≤ now - s.last_groups_signal then
    ({ s with last_groups_signal := now }, true)
  else (s, false)

/-- The body of `_process_listen_groups` for one group: returns the value
    handed to `_set_group_state_from_intensity` (`none` meaning
    `_set_group_state(gi, None)`), the `(entity, colour)` pairs passed to
    `_call_light_intensity`, and the group's new `_last_listen_update`. -/
def processListenGroup (calib : CalibSettings) (rnd : ℕ) (interval mono last : ℚ)
    (rgbFrame : List RGB) (g : LightGroup) : Option RGB × List (String × RGB) × ℚ :=
  let led_indices := g.led_indices.filter (fun idx => idx < rgbFrame.length)
  if led_indices = [] then (none, [], last)
  else if g.strategy = "one_to_one" then
    let processed := led_indices.map (fun idx => apply_calibration calib (rgbFrame.getD idx (0, 0, 0)))
    let group_colour := aggregate_colour rnd processed "average"
    let gate := interval ≤ 0 ∨ interval ≤ mono - last
    (group_colour, if gate then g.entities.zip processed else [], if gate then mono else last)
  else
    let subset := led_indices.map (fun idx => rgbFrame.getD idx (0, 0, 0))
    match aggregate_colour rnd subset g.strategy with
    | none => (none, [], last)
    | some colour =>
      let processed_colour := apply_calibration calib colour
      let gate := interval ≤ 0 ∨ interval ≤ mono - last
      (some processed_colour,
       if gate then g.entities.map (fun e => (e, processed_colour)) else [],
       if gate then mono else last)

/-- Write-back of one group's result into the coordinator lists, as
    `_set_group_state` / `_set_group_state_from_intensity` do. -/
def listen_step (calib : CalibSettings) (rnd : ℕ) (interval mono : ℚ) (rgbFrame : List RGB)
    (acc : CoordState × List (String × RGB)) (ig : ℕ × LightGroup) :
    CoordState × List (String × RGB) :=
  let st := acc.1
  let res := processListenGroup calib rnd interval mono
      (st.last_listen_update.getD ig.1 0) rgbFrame ig.2
  ({ st with
      group_rgb := st.group_rgb.set ig.1 (res.1.map (fun c => (rgb_intensity_to_service c).1)),
      group_brightness :=
        st.group_brightness.set ig.1 (res.1.map (fun c => (rgb_intensity_to_service c).2)),
      last_listen_update := st.last_listen_update.set ig.1 res.2.2 },
   acc.2 ++ res.2.1)

/-- `_process_listen_groups`: per-group aggregation, calibration, state
    write-back and command emission, then the throttled groups signal. -/
def process_listen_groups (mono : ℚ) (rnd : ℕ) (colours : List String) (s : CoordState) :
    CoordState × List (String × RGB) :=
  if ¬(s.mode = MODE_LISTEN) ∨ s.groups = [] then (s, [])
  else if colours = [] then (s, [])
  else
    let rgbFrame := colours.map hex_to_rgb
    let res := s.groups.enum.foldl (listen_step s.calib rnd s.sync_interval mono rgbFrame) (s, [])
    ((dispatch_groups_signal mono false res.1).1, res.2)

/-- `_async_handle_frame`: returns the new state, whether the state-frame
    signal fired, and the `(entity, colour)` intensity calls emitted. -/
def async_handle_frame (ts : ℕ) (mono : ℚ) (rnd : ℕ) (payload : List ℕ) (s : CoordState) :
    CoordState × Bool × List (String × RGB) :=
  if payload = [] then (s, false, [])
  else if ¬(payload.length % 3 = 0) then (s, false, [])
  else
    let colours := decodeFrame payload
    let s1 := { s with
        frame := some { colours := colours, updated_at := ts,
                        payload_len := payload.length, led_count := colours.length },
        led_count := (colours.length : ℤ) }
    let res := process_listen_groups mono rnd colours s1
    (res.1, true, res.2)

/-- The per-group computation of `_update_group_states_from_lights`
    (broadcast direction): the `(rgb, brightness)` pair written into the
    group's output state; `getColour` is the external entity-state lookup. -/
def broadcastGroupState (getColour : String → Option RGB) (rnd : ℕ) (g : LightGroup) :
    Option RGB × Option ℤ :=
  let colours := (g.entities.map getColour).reduceOption
  match colours with
  | [] => (none, none)
  | _ =>
    let strategy := if g.strategy = "one_to_one" then "average" else g.strategy
    match aggregate_colour rnd colours strategy with
    | none => (none, none)
    | some colour =>
      let rs := rgb_intensity_to_service colour
      (some rs.1, some rs.2)

/-- `_update_group_states_from_lights`: refresh every group's output state
    from the member lights' current colours. -/
def update_group_states_from_lights (getColour : String → Option RGB) (rnd : ℕ)
    (s : CoordState) : CoordState :=
  s.groups.enum.foldl
    (fun st ig =>
      let res := broadcastGroupState getColour rnd ig.2
      { st with
          group_rgb := st.group_rgb.set ig.1 res.1,
          group_brightness := st.group_brightness.set ig.1 res.2 })
    s

/-- `_build_frame_from_groups`: rebuild the synthetic outbound frame. -/
def build_frame_from_groups (getColour : String → Option RGB) (rnd : ℕ) (s : CoordState) :
    List String :=
  let led_count := (max 1 s.led_count).toNat
  let base := List.replicate led_count "000000"
  s.groups.foldl
    (fun frame g =>
      if g.led_indices = [] then frame
      else if g.strategy = "one_to_one" then
        (g.entities.zip g.led_indices).foldl
          (fun fr el =>
            match getColour el.1 with
            | none => fr
            | some c =>
              if el.2 < led_count then
                fr.set el.2 (colourHex c.1.toNat c.2.1.toNat c.2.2.toNat)
              else fr)
          frame
      else
        let colours := (g.entities.map getColour).reduceOption
        if colours = [] then frame
        else
          match aggregate_colour rnd colours g.strategy with
          | none => frame
          | some c =>
            g.led_indices.foldl
              (fun fr idx =>
                if idx < led_count then
                  fr.set idx (colourHex c.1.toNat c.2.1.toNat c.2.2.toNat)
                else fr)
              frame)
    base

/-- Configuration-snapshot fields of the coordinator state other than the
    LED count (the claims single the LED count out). -/
def ConfigEq (a b : CoordState) : Prop :=
  a.command_topic = b.command_topic ∧ a.state_topic = b.state_topic ∧
  a.led_in_topic = b.led_in_topic ∧ a.led_out_topic = b.led_out_topic ∧
  a.brightness_levels = b.brightness_levels ∧ a.sync_interval = b.sync_interval ∧
  a.command_spacing = b.command_spacing ∧ a.transition = b.transition ∧
  a.calib = b.calib ∧ a.state_enabled = b.state_enabled ∧
  a.mode = b.mode ∧ a.groups = b.groups

/-- Calibration settings with every knob at its `const.py` default
    (identity transform, no cutoffs). -/
def identityCalib : CalibSettings :=
  { temperature_shift := 0, saturation_gain := 1, brightness_gain := 1,
    cutoff_red := 0, cutoff_green := 0, cutoff_blue := 0, brightness_cutoff := 0 }

/-- The default-calibration settings with the overall brightness cutoff
    raised to 50 (the configuration the spec's example uses). -/
def cutoff50Calib : CalibSettings :=
  { identityCalib with brightness_cutoff := 50 }

/-- A concrete coordinator state for witnesses and counterexamples:
    default topics and numbers from `const.py`, no groups, no frame yet. -/
def sampleState : CoordState :=
  { command_topic := "lg/monitor/colour", state_topic := "lg/monitor/state",
    led_in_topic := "lg/monitor/out", led_out_topic := "lg/monitor/out",
    led_count := 48, brightness_levels := 12, sync_interval := 1/10,
    command_spacing := 0, transition := 0, calib := identityCalib,
    state_enabled := true, mode := MODE_LISTEN, groups := [],
    frame := none, group_rgb := [], group_brightness := [],
    last_listen_update := [], last_groups_signal := 0 }

/-! ## Helper lemmas -/

theorem pyRound_near (q : ℚ) : |(pyRound q : ℚ) - q| ≤ 1/2 := by
  have h0 : (⌊q⌋ : ℚ) ≤ q := Int.floor_le q
  have h1 : q < ⌊q⌋ + 1 := Int.lt_floor_add_one q
  unfold pyRound
  split_ifs with hlt hgt heven
  · rw [abs_sub_comm, abs_of_nonneg (by linarith)]
    linarith
  · push_cast
    rw [abs_of_nonneg (by linarith)]
    linarith
  · rw [abs_sub_comm, abs_of_nonneg (by linarith)]
    linarith
  · push_cast
    rw [abs_of_nonneg (by linarith)]
    linarith

theorem pyRound_intCast (n : ℤ) : pyRound (n : ℚ) = n := by
  unfold pyRound
  norm_num

theorem clamp255_nonneg (n : ℤ) : 0 ≤ clamp255 n := le_max_left _ _

theorem clamp255_le (n : ℤ) : clamp255 n ≤ 255 :=
  max_le (by norm_num) (min_le_left _ _)

theorem max3_eq_255 {u v w : ℤ} (hu : u ≤ 255) (hv : v ≤ 255) (hw : w ≤ 255)
    (h : u = 255 ∨ v = 255 ∨ w = 255) : max u (max v w) = 255 := by
  have hle : max u (max v w) ≤ 255 := max_le hu (max_le hv hw)
  have hge : 255 ≤ max u (max v w) := by
    rcases h with h | h | h
    · rw [← h]
      exact le_max_left _ _
    · rw [← h]
      exact le_trans (le_max_left v w) (le_max_right u _)
    · rw [← h]
      exact le_trans (le_max_right v w) (le_max_right u _)
  exact le_antisymm hle hge

theorem aggregate_average_eq (rnd : ℕ) (c : RGB) (cs : List RGB) :
    aggregate_colour rnd (c :: cs) "average"
      = some (pyRound ((((c :: cs).map (fun x => x.1)).sum : ℚ) / ((c :: cs).length : ℚ)),
              pyRound ((((c :: cs).map (fun x => x.2.1)).sum : ℚ) / ((c :: cs).length : ℚ)),
              pyRound ((((c :: cs).map (fun x => x.2.2)).sum : ℚ) / ((c :: cs).length : ℚ))) :=
  rfl

/-! ## Claim C1 -/

/-- Claim C1, amended. The `average` strategy computes, per channel
    independently, the arithmetic mean rounded to the nearest integer with
    Python's half-to-even tie break (`pyRound` is within `1/2` of its
    argument). On `[(255,0,0),(0,255,0)]` this yields `(128,128,0)`:
    the blue channel averages to `0`, not to the `128` the spec asserts. -/
theorem C1_average_mean (rnd : ℕ) (cs : List RGB) (h : cs ≠ []) :
    aggregate_colour rnd cs "average"
      = some (pyRound (((cs.map (fun x => x.1)).sum : ℚ) / (cs.length : ℚ)),
              pyRound (((cs.map (fun x => x.2.1)).sum : ℚ) / (cs.length : ℚ)),
              pyRound (((cs.map (fun x => x.2.2)).sum : ℚ) / (cs.length : ℚ)))
    ∧ (∀ q : ℚ, |(pyRound q : ℚ) - q| ≤ 1/2) := by
  constructor
  · match cs with
    | [] => exact absurd rfl h
    | c :: cs' => exact aggregate_average_eq rnd c cs'
  · exact pyRound_near

/-- Witness for C1: the amended theorem applied to the spec's example list. -/
theorem C1_average_mean_witness :
    aggregate_colour 3 ([(255, 0, 0), (0, 255, 0)] : List RGB) "average"
      = some (pyRound (((([(255, 0, 0), (0, 255, 0)] : List RGB).map (fun x => x.1)).sum : ℚ)
                / (([(255, 0, 0), (0, 255, 0)] : List RGB).length : ℚ)),
              pyRound (((([(255, 0, 0), (0, 255, 0)] : List RGB).map (fun x => x.2.1)).sum : ℚ)
                / (([(255, 0, 0), (0, 255, 0)] : List RGB).length : ℚ)),
              pyRound (((([(255, 0, 0), (0, 255, 0)] : List RGB).map (fun x => x.2.2)).sum : ℚ)
                / (([(255, 0, 0), (0, 255, 0)] : List RGB).length : ℚ))) :=
  (C1_average_mean 3 ([(255, 0, 0), (0, 255, 0)] : List RGB) (by simp)).1

/-- Counterexample to C1 as stated: the spec's example output is wrong in
    the blue channel. -/
theorem C1_average_counterexample :
    aggregate_colour 0 ([(255, 0, 0), (0, 255, 0)] : List RGB) "average" = some (128, 128, 0)
    ∧ (some ((128:ℤ), (128:ℤ), (0:ℤ)) : Option RGB) ≠ some (128, 128, 128) := by
  constructor
  · rw [aggregate_average_eq]
    norm_num [pyRound]
  · decide

/-! ## Claim C9 -/

theorem hexVal_hexDigit : ∀ n, n < 16 → hexVal (hexDigit n) = some n := by decide

theorem fromHexChars_colourHex (r g b : ℕ) (hr : r < 256) (hg : g < 256) (hb : b < 256) :
    fromHexChars (colourHex r g b).data = some [r, g, b] := by
  have d1 := hexVal_hexDigit (r / 16) (by omega)
  have d2 := hexVal_hexDigit (r % 16) (by omega)
  have d3 := hexVal_hexDigit (g / 16) (by omega)
  have d4 := hexVal_hexDigit (g % 16) (by omega)
  have d5 := hexVal_hexDigit (b / 16) (by omega)
  have d6 := hexVal_hexDigit (b % 16) (by omega)
  simp only [colourHex, byteToHex, List.cons_append, List.nil_append]
  simp only [fromHexChars, d1, d2, d3, d4, d5, d6]
  have e1 : 16 * (r / 16) + r % 16 = r := by omega
  have e2 : 16 * (g / 16) + g % 16 = g := by omega
  have e3 : 16 * (b / 16) + b % 16 = b := by omega
  rw [e1, e2, e3]

/-- Claim C9: decoding a byte buffer of length `3N` into hex colour
    strings and re-encoding them through the broadcast publisher yields
    exactly the original buffer. -/
theorem C9_hex_roundtrip :
    ∀ (buf : List ℕ), (∀ x ∈ buf, x < 256) → buf.length % 3 = 0 →
      publish_frame_bytes (decodeFrame buf) = some buf
  | [] => fun _ _ => rfl
  | [_] => fun _ hlen => by simp at hlen
  | [_, _] => fun _ hlen => by simp at hlen
  | r :: g :: b :: rest => fun hlt hlen => by
    have hr : r < 256 := hlt r (by simp)
    have hg : g < 256 := hlt g (by simp)
    have hb : b < 256 := hlt b (by simp)
    have ih := C9_hex_roundtrip rest (fun x hx => hlt x (by simp [hx]))
      (by simp only [List.length_cons] at hlen; omega)
    simp only [decodeFrame, publish_frame_bytes, fromHexChars_colourHex r g b hr hg hb, ih,
      List.cons_append, List.nil_append]

/-- Witness for C9 at a concrete two-LED buffer. -/
theorem C9_hex_roundtrip_witness :
    publish_frame_bytes (decodeFrame [255, 0, 0, 0, 255, 0]) = some [255, 0, 0, 0, 255, 0] :=
  C9_hex_roundtrip [255, 0, 0, 0, 255, 0] (by decide) (by decide)

/-! ## Claim C10 -/

theorem scale_at_max (c m : ℤ) (hc : c = m) (hpos : 0 < m) :
    clamp255 (pyRound ((c : ℚ) * (255 / (m : ℚ)))) = 255 := by
  subst hc
  have hne : (c : ℚ) ≠ 0 := Int.cast_ne_zero.mpr (ne_of_gt hpos)
  have hmul : (c : ℚ) * (255 / (c : ℚ)) = 255 := by field_simp
  rw [hmul]
  have hcast : (255 : ℚ) = ((255 : ℤ) : ℚ) := by norm_num
  rw [hcast, pyRound_intCast 255]
  decide

/-- Claim C10: `_rgb_intensity_to_service` returns the maximum clamped
    channel as brightness; a zero maximum yields `((0,0,0), 0)` and makes
    `_call_light_intensity` issue `turn_off`; a positive maximum yields a
    colour whose channels are scaled by `255/max` (rounded, clamped) and
    whose own maximum is exactly `255`, issued as `turn_on` together with
    the separate brightness. -/
theorem C10_intensity_normalisation (rgb : RGB) (tr : ℚ) (e : String) :
    (rgb_intensity_to_service rgb).2
      = max (clamp255 rgb.1) (max (clamp255 rgb.2.1) (clamp255 rgb.2.2))
    ∧ ((rgb_intensity_to_service rgb).2 = 0 →
        rgb_intensity_to_service rgb = ((0, 0, 0), 0)
        ∧ call_light_intensity tr e rgb = turn_off_light tr e)
    ∧ (0 < (rgb_intensity_to_service rgb).2 →
        (rgb_intensity_to_service rgb).1
          = (clamp255 (pyRound ((clamp255 rgb.1 : ℚ)
                * (255 / ((rgb_intensity_to_service rgb).2 : ℚ)))),
             clamp255 (pyRound ((clamp255 rgb.2.1 : ℚ)
                * (255 / ((rgb_intensity_to_service rgb).2 : ℚ)))),
             clamp255 (pyRound ((clamp255 rgb.2.2 : ℚ)
                * (255 / ((rgb_intensity_to_service rgb).2 : ℚ)))))
        ∧ max (rgb_intensity_to_service rgb).1.1
            (max (rgb_intensity_to_service rgb).1.2.1 (rgb_intensity_to_service rgb).1.2.2) = 255
        ∧ call_light_intensity tr e rgb
            = { service := "turn_on",
                data := { entity_id := e,
                          rgb_color := some (rgb_intensity_to_service rgb).1,
                          brightness := some (rgb_intensity_to_service rgb).2,
                          transition := if 0 < tr then some tr else none } }) := by
  have hm0 : 0 ≤ max (clamp255 rgb.1) (max (clamp255 rgb.2.1) (clamp255 rgb.2.2)) :=
    le_trans (clamp255_nonneg rgb.1) (le_max_left _ _)
  rcases le_or_lt (max (clamp255 rgb.1) (max (clamp255 rgb.2.1) (clamp255 rgb.2.2))) 0
    with hle | hpos
  · have hmz : max (clamp255 rgb.1) (max (clamp255 rgb.2.1) (clamp255 rgb.2.2)) = 0 :=
      le_antisymm hle hm0
    have hsvc : rgb_intensity_to_service rgb = ((0, 0, 0), 0) := by
      simp only [rgb_intensity_to_service]
      rw [if_pos hle]
    refine ⟨by rw [hsvc, hmz], fun _ => ⟨hsvc, ?_⟩, fun hcon => ?_⟩
    · simp only [call_light_intensity, hsvc]
      norm_num
    · rw [hsvc] at hcon
      exact absurd hcon (lt_irrefl 0)
  · have hnle : ¬ max (clamp255 rgb.1) (max (clamp255 rgb.2.1) (clamp255 rgb.2.2)) ≤ 0 :=
      not_le.mpr hpos
    have hsvc : rgb_intensity_to_service rgb
        = ((clamp255 (pyRound ((clamp255 rgb.1 : ℚ)
              * (255 / ((max (clamp255 rgb.1) (max (clamp255 rgb.2.1) (clamp255 rgb.2.2)) : ℤ) : ℚ)))),
            clamp255 (pyRound ((clamp255 rgb.2.1 : ℚ)
              * (255 / ((max (clamp255 rgb.1) (max (clamp255 rgb.2.1) (clamp255 rgb.2.2)) : ℤ) : ℚ)))),
            clamp255 (pyRound ((clamp255 rgb.2.2 : ℚ)
              * (255 / ((max (clamp255 rgb.1) (max (clamp255 rgb.2.1) (clamp255 rgb.2.2)) : ℤ) : ℚ))))),
           max (clamp255 rgb.1) (max (clamp255 rgb.2.1) (clamp255 rgb.2.2))) := by
      simp only [rgb_intensity_to_service]
      rw [if_neg hnle]
    have h2 : (rgb_intensity_to_service rgb).2
        = max (clamp255 rgb.1) (max (clamp255 rgb.2.1) (clamp255 rgb.2.2)) := by rw [hsvc]
    refine ⟨h2, fun hz => ?_, fun _ => ⟨?_, ?_, ?_⟩⟩
    · rw [h2] at hz
      omega
    · rw [h2, hsvc]
    · rw [hsvc]
      have hwhich :
          max (clamp255 rgb.1) (max (clamp255 rgb.2.1) (clamp255 rgb.2.2)) = clamp255 rgb.1
          ∨ max (clamp255 rgb.1) (max (clamp255 rgb.2.1) (clamp255 rgb.2.2)) = clamp255 rgb.2.1
          ∨ max (clamp255 rgb.1) (max (clamp255 rgb.2.1) (clamp255 rgb.2.2)) = clamp255 rgb.2.2 := by
        rcases max_choice (clamp255 rgb.1) (max (clamp255 rgb.2.1) (clamp255 rgb.2.2)) with h | h
        · exact Or.inl h
        · rcases max_choice (clamp255 rgb.2.1) (clamp255 rgb.2.2) with h2 | h2
          · exact Or.inr (Or.inl (h.trans h2))
          · exact Or.inr (Or.inr (h.trans h2))
      apply max3_eq_255 (clamp255_le _) (clamp255_le _) (clamp255_le _)
      rcases hwhich with h | h | h
      · exact Or.inl (scale_at_max _ _ h.symm hpos)
      · exact Or.inr (Or.inl (scale_at_max _ _ h.symm hpos))
      · exact Or.inr (Or.inr (scale_at_max _ _ h.symm hpos))
    · simp only [call_light_intensity]
      rw [h2, if_neg hnle]

/-- Witness for C10 at the colour `(10, 20, 30)`: brightness `30`, and the
    normalised colour has maximum channel `255`. -/
theorem C10_intensity_witness :
    (rgb_intensity_to_service ((10, 20, 30) : RGB)).2 = 30
    ∧ max (rgb_intensity_to_service ((10, 20, 30) : RGB)).1.1
        (max (rgb_intensity_to_service ((10, 20, 30) : RGB)).1.2.1
          (rgb_intensity_to_service ((10, 20, 30) : RGB)).1.2.2) = 255 := by
  have h := C10_intensity_normalisation ((10, 20, 30) : RGB) 0 "light.x"
  have hb : (rgb_intensity_to_service ((10, 20, 30) : RGB)).2 = 30 := by
    rw [h.1]
    decide
  exact ⟨hb, (h.2.2 (by rw [hb]; norm_num)).2.1⟩

/-! ## Claim C4 -/

theorem queue_light_service_mem {Cmd : Type} (s : DispatchState Cmd) (e : String) (c : Cmd)
    (h : e ∈ s.queued_entities) :
    queue_light_service s e c
      = { pending_light_commands :=
            (fun x => if x = e then some c else s.pending_light_commands x),
          queued_entities := s.queued_entities,
          command_queue := s.command_queue } := by
  simp only [queue_light_service]
  rw [if_pos h]

theorem queue_light_service_not_mem {Cmd : Type} (s : DispatchState Cmd) (e : String) (c : Cmd)
    (h : e ∉ s.queued_entities) :
    queue_light_service s e c
      = { pending_light_commands :=
            (fun x => if x = e then some c else s.pending_light_commands x),
          queued_entities := e :: s.queued_entities,
          command_queue := s.command_queue ++ [e] } := by
  simp only [queue_light_service]
  rw [if_neg h]

/-- Claim C4: the dispatcher keeps at most one pending command and at most
    one queue entry per target (the pending map is keyed, the FIFO stays
    duplicate-free under enqueue and drain); re-enqueuing an already-pending
    target overwrites the command without a second queue entry; a drain
    issues exactly one outbound call with the command pending at drain
    time, so two enqueues before the drain yield one call with the second
    payload. -/
theorem C4_last_write_wins {Cmd : Type} (s : DispatchState Cmd) (e : String) (c1 c2 : Cmd) :
    (DispatchInv s → DispatchInv (queue_light_service s e c1))
    ∧ (∀ (s2 : DispatchState Cmd) (out : Option (String × Cmd)),
        DispatchInv s → command_worker_step s = some (s2, out) → DispatchInv s2)
    ∧ (DispatchInv s → ∀ t, s.command_queue.count t ≤ 1)
    ∧ ((queue_light_service (queue_light_service s e c1) e c2).pending_light_commands e
          = some c2
        ∧ (queue_light_service (queue_light_service s e c1) e c2).command_queue
            = (queue_light_service s e c1).command_queue)
    ∧ (s.command_queue = [] → DispatchInv s →
        (command_worker_step (queue_light_service (queue_light_service s e c1) e c2)).map
            (fun p => (p.2, p.1.command_queue, p.1.pending_light_commands e))
          = some (some (e, c2), [], none)) := by
  have queued_after : ∀ (c : Cmd), e ∈ (queue_light_service s e c).queued_entities := by
    intro c
    unfold queue_light_service
    by_cases hmem : e ∈ s.queued_entities
    · rw [if_pos hmem]
      exact hmem
    · rw [if_neg hmem]
      exact List.mem_cons_self e _
  refine ⟨?_, ?_, ?_, ?_, ?_⟩
  · rintro ⟨hnd, hndq, hiff⟩
    unfold queue_light_service
    by_cases hmem : e ∈ s.queued_entities
    · rw [if_pos hmem]
      exact ⟨hnd, hndq, hiff⟩
    · rw [if_neg hmem]
      refine ⟨?_, ?_, ?_⟩
      · simp only [List.nodup_append, List.nodup_cons, List.nodup_nil]
        exact ⟨hnd, by simp, by
          intro a ha hb
          simp only [List.mem_singleton] at hb
          subst hb
          exact hmem ((hiff a).mp ha)⟩
      · exact List.Nodup.cons hmem hndq
      · intro a
        simp only [List.mem_append, List.mem_singleton, List.mem_cons,
          List.not_mem_nil, or_false]
        rw [hiff a]
        tauto
  · rintro s2 out ⟨hnd, hndq, hiff⟩ hstep
    unfold command_worker_step at hstep
    match hq : s.command_queue with
    | [] => rw [hq] at hstep; exact absurd hstep (by simp)
    | ent :: rest =>
      rw [hq] at hstep
      simp only [Option.some_inj] at hstep
      have hs2 : s2
          = { pending_light_commands :=
                (fun x => if x = ent then none else s.pending_light_commands x),
              queued_entities := s.queued_entities.erase ent,
              command_queue := rest } := (congrArg Prod.fst hstep).symm
      rw [hq] at hnd
      have hndr : rest.Nodup := (List.nodup_cons.mp hnd).2
      have hentr : ent ∉ rest := (List.nodup_cons.mp hnd).1
      subst hs2
      refine ⟨hndr, List.Nodup.erase ent hndq, ?_⟩
      intro a
      rw [List.Nodup.mem_erase_iff hndq]
      constructor
      · intro ha
        refine ⟨fun hae => ?_, (hiff a).mp (by rw [hq]; exact List.mem_cons_of_mem ent ha)⟩
        subst hae
        exact hentr ha
      · rintro ⟨hae, ha⟩
        have := (hiff a).mpr ha
        rw [hq] at this
        rcases List.mem_cons.mp this with h | h
        · exact absurd h hae
        · exact h
  · rintro ⟨hnd, _, _⟩ t
    exact List.nodup_iff_count_le_one.mp hnd t
  · rw [queue_light_service_mem _ _ _ (queued_after c1)]
    exact ⟨by simp, rfl⟩
  · intro hq ⟨hnd, hndq, hiff⟩
    have hnmem : e ∉ s.queued_entities := by
      intro hmem
      have := (hiff e).mpr hmem
      rw [hq] at this
      exact absurd this (List.not_mem_nil e)
    rw [queue_light_service_mem _ _ _ (queued_after c1),
      queue_light_service_not_mem _ _ _ hnmem]
    simp only [hq, List.nil_append, command_worker_step, Option.map_some]
    simp

/-- Witness for C4: on an initially empty dispatcher, enqueuing commands
    `1` then `2` for the same entity and draining yields exactly one
    outbound call with payload `2`, an empty queue, and no pending entry. -/
theorem C4_last_write_wins_witness :
    (command_worker_step (queue_light_service
        (queue_light_service ({ pending_light_commands := (fun _ => none),
                                queued_entities := [], command_queue := [] } : DispatchState ℕ)
          "light.a" 1) "light.a" 2)).map
        (fun p => (p.2, p.1.command_queue, p.1.pending_light_commands "light.a"))
      = some (some ("light.a", 2), [], none) :=
  (C4_last_write_wins
    ({ pending_light_commands := (fun _ => none),
       queued_entities := [],
       command_queue := [] } : DispatchState ℕ)
    "light.a" 1 2).2.2.2.2 rfl ⟨List.nodup_nil, List.nodup_nil, by simp⟩

/-! ## Claims C5, C7 and C8 -/

/-- Claim C5: in listen-mode group processing, a `one_to_one` group
    calibrates every matched LED colour independently and displays the
    average of the calibrated colours, while every other strategy
    aggregates the matched colours first and calibrates the single
    aggregate exactly once. -/
theorem C5_calibration_order (calib : CalibSettings) (rnd : ℕ) (interval mono last : ℚ)
    (rgbFrame : List RGB) (g : LightGroup) :
    (g.strategy = "one_to_one" →
      (processListenGroup calib rnd interval mono last rgbFrame g).1
        = aggregate_colour rnd
            (((g.led_indices.filter (fun idx => idx < rgbFrame.length)).map
                (fun idx => rgbFrame.getD idx (0, 0, 0))).map (apply_calibration calib))
            "average")
    ∧ (g.strategy ≠ "one_to_one" →
      (processListenGroup calib rnd interval mono last rgbFrame g).1
        = Option.map (apply_calibration calib)
            (aggregate_colour rnd
              ((g.led_indices.filter (fun idx => idx < rgbFrame.length)).map
                (fun idx => rgbFrame.getD idx (0, 0, 0)))
              g.strategy)) := by
  constructor
  · intro hs
    unfold processListenGroup
    by_cases hnil : g.led_indices.filter (fun idx => idx < rgbFrame.length) = []
    · rw [if_pos hnil, hnil]
      simp [aggregate_colour]
    · rw [if_neg hnil, if_pos hs]
      dsimp only
      rw [List.map_map]
      rfl
  · intro hs
    unfold processListenGroup
    by_cases hnil : g.led_indices.filter (fun idx => idx < rgbFrame.length) = []
    · rw [if_pos hnil, hnil]
      simp [aggregate_colour]
    · rw [if_neg hnil, if_neg hs]
      rcases hagg : aggregate_colour rnd
          ((g.led_indices.filter (fun idx => idx < rgbFrame.length)).map
            (fun idx => rgbFrame.getD idx (0, 0, 0))) g.strategy with _ | colour
      · dsimp only
        rw [hagg]
        rfl
      · dsimp only
        rw [hagg]
        rfl

/-- Witness for C5: a concrete `one_to_one` group over a two-LED frame
    displays the average of the per-LED calibrated colours. -/
theorem C5_calibration_order_witness :
    (processListenGroup identityCalib 0 0 0 0 ([(10, 20, 30), (30, 20, 10)] : List RGB)
        { name := "g", entities := ["light.a"], led_indices := [0, 1],
          strategy := "one_to_one" }).1
      = aggregate_colour 0
          ((((({ name := "g", entities := ["light.a"], led_indices := [0, 1],
                 strategy := "one_to_one" } : LightGroup)).led_indices.filter
              (fun idx => idx < ([(10, 20, 30), (30, 20, 10)] : List RGB).length)).map
            (fun idx => ([(10, 20, 30), (30, 20, 10)] : List RGB).getD idx (0, 0, 0))).map
            (apply_calibration identityCalib))
          "average" :=
  (C5_calibration_order identityCalib 0 0 0 0 ([(10, 20, 30), (30, 20, 10)] : List RGB)
    { name := "g", entities := ["light.a"], led_indices := [0, 1],
      strategy := "one_to_one" }).1 rfl

/-- Claim C7: `one_to_one` pairing is positional over the shorter of the
    entity list and the matched-index list; with 3 entities and 2 matched
    indices only the first 2 entities are commanded and the third gets no
    command. -/
theorem C7_positional_pairing :
    (∀ (calib : CalibSettings) (rnd : ℕ) (interval mono last : ℚ)
        (rgbFrame : List RGB) (g : LightGroup),
      g.strategy = "one_to_one" → interval ≤ 0 →
        (processListenGroup calib rnd interval mono last rgbFrame g).2.1
          = g.entities.zip
              ((g.led_indices.filter (fun idx => idx < rgbFrame.length)).map
                (fun idx => apply_calibration calib (rgbFrame.getD idx (0, 0, 0))))
        ∧ ((processListenGroup calib rnd interval mono last rgbFrame g).2.1).length
            = min g.entities.length
                ((g.led_indices.filter (fun idx => idx < rgbFrame.length)).map
                  (fun idx => apply_calibration calib (rgbFrame.getD idx (0, 0, 0)))).length)
    ∧ (∀ (calib : CalibSettings) (rnd : ℕ) (mono last : ℚ) (e1 e2 e3 : String) (c0 c1 : RGB),
        ((processListenGroup calib rnd 0 mono last [c0, c1]
            { name := "g", entities := [e1, e2, e3], led_indices := [0, 1],
              strategy := "one_to_one" }).2.1).map Prod.fst = [e1, e2]
        ∧ (e3 ∉ [e1, e2] → ∀ c : RGB,
            (e3, c) ∉ (processListenGroup calib rnd 0 mono last [c0, c1]
              { name := "g", entities := [e1, e2, e3], led_indices := [0, 1],
                strategy := "one_to_one" }).2.1)) := by
  have general : ∀ (calib : CalibSettings) (rnd : ℕ) (interval mono last : ℚ)
      (rgbFrame : List RGB) (g : LightGroup),
      g.strategy = "one_to_one" → interval ≤ 0 →
        (processListenGroup calib rnd interval mono last rgbFrame g).2.1
          = g.entities.zip
              ((g.led_indices.filter (fun idx => idx < rgbFrame.length)).map
                (fun idx => apply_calibration calib (rgbFrame.getD idx (0, 0, 0)))) := by
    intro calib rnd interval mono last rgbFrame g hs hint
    unfold processListenGroup
    by_cases hnil : g.led_indices.filter (fun idx => idx < rgbFrame.length) = []
    · rw [if_pos hnil, hnil]
      simp
    · rw [if_neg hnil, if_pos hs]
      dsimp only
      rw [if_pos (Or.inl hint)]
  constructor
  · intro calib rnd interval mono last rgbFrame g hs hint
    refine ⟨general calib rnd interval mono last rgbFrame g hs hint, ?_⟩
    rw [general calib rnd interval mono last rgbFrame g hs hint]
    exact List.length_zip _ _
  · intro calib rnd mono last e1 e2 e3 c0 c1
    have h := general calib rnd 0 mono last [c0, c1]
      { name := "g", entities := [e1, e2, e3], led_indices := [0, 1],
        strategy := "one_to_one" } rfl le_rfl
    rw [h]
    constructor
    · simp [List.filter]
    · intro hne c hmem
      simp only [List.filter, List.mem_cons] at hne hmem ⊢
      simp at hmem
      rcases hmem with ⟨h3, _⟩ | ⟨h3, _⟩
      · exact hne (Or.inl h3)
      · exact hne (Or.inr (Or.inl h3))

/-- Witness for C7: three concrete entities, two matched indices; the
    third entity receives no command, in particular not a black one. -/
theorem C7_positional_pairing_witness :
    ((processListenGroup identityCalib 0 0 0 0 ([(1, 2, 3), (4, 5, 6)] : List RGB)
        { name := "g", entities := ["light.a", "light.b", "light.c"], led_indices := [0, 1],
          strategy := "one_to_one" }).2.1).map Prod.fst = ["light.a", "light.b"]
    ∧ ("light.c", ((0, 0, 0) : RGB)) ∉ (processListenGroup identityCalib 0 0 0 0
        ([(1, 2, 3), (4, 5, 6)] : List RGB)
        { name := "g", entities := ["light.a", "light.b", "light.c"], led_indices := [0, 1],
          strategy := "one_to_one" }).2.1 := by
  have h := (C7_positional_pairing).2 identityCalib 0 0 0 "light.a" "light.b" "light.c"
    ((1, 2, 3) : RGB) ((4, 5, 6) : RGB)
  exact ⟨h.1, h.2 (by decide) ((0, 0, 0) : RGB)⟩

/-- Claim C8: a group with no resolvable input gets output state `None`
    and no commands: in listen mode, when every configured index falls
    outside the frame; in broadcast mode, when every member light reports
    no resolvable colour. -/
theorem C8_no_resolvable_input :
    (∀ (calib : CalibSettings) (rnd : ℕ) (interval mono last : ℚ)
        (rgbFrame : List RGB) (g : LightGroup),
      (∀ idx ∈ g.led_indices, ¬ idx < rgbFrame.length) →
        processListenGroup calib rnd interval mono last rgbFrame g = (none, [], last))
    ∧ (∀ (getColour : String → Option RGB) (rnd : ℕ) (g : LightGroup),
        (∀ e ∈ g.entities, getColour e = none) →
          broadcastGroupState getColour rnd g = (none, none)) := by
  constructor
  · intro calib rnd interval mono last rgbFrame g h
    unfold processListenGroup
    have hnil : g.led_indices.filter (fun idx => idx < rgbFrame.length) = [] := by
      rw [List.filter_eq_nil_iff]
      intro a ha
      simpa using h a ha
    rw [if_pos hnil]
  · intro getColour rnd g h
    unfold broadcastGroupState
    have hnil : ∀ l : List String, (∀ e ∈ l, getColour e = none) →
        (l.map getColour).reduceOption = [] := by
      intro l
      induction l with
      | nil => intro _; rfl
      | cons x xs ih =>
        intro hx
        rw [List.map_cons, hx x (List.mem_cons_self x xs), List.reduceOption_cons_of_none]
        exact ih (fun e he => hx e (List.mem_cons_of_mem x he))
    rw [hnil g.entities h]

/-- Witness for C8: a group whose indices `[5, 6]` all fall outside a
    2-LED frame, and a group whose two members both resolve to no colour. -/
theorem C8_no_resolvable_input_witness :
    processListenGroup identityCalib 0 0 0 0 ([(1, 2, 3), (4, 5, 6)] : List RGB)
        { name := "g", entities := ["light.a"], led_indices := [5, 6],
          strategy := "average" } = (none, [], 0)
    ∧ broadcastGroupState (fun _ => none) 0
        { name := "g", entities := ["light.a", "light.b"], led_indices := [0],
          strategy := "average" } = (none, none) :=
  ⟨(C8_no_resolvable_input).1 identityCalib 0 0 0 0 _ _ (by decide),
   (C8_no_resolvable_input).2 (fun _ => none) 0 _ (fun _ _ => rfl)⟩

/-! ## Claims C2 and C3 -/

theorem decodeFrame_length : ∀ (buf : List ℕ), (decodeFrame buf).length = buf.length / 3
  | [] => rfl
  | [x] => by
    have h : decodeFrame [x] = [] := rfl
    rw [h]
    simp
  | [x, y] => by
    have h : decodeFrame [x, y] = [] := rfl
    rw [h]
    simp
  | _ :: _ :: _ :: rest => by
    simp only [decodeFrame, List.length_cons, decodeFrame_length rest]
    omega

theorem getD_cons3 (r g b : ℕ) (rest : List ℕ) (n : ℕ) :
    (r :: g :: b :: rest).getD (n + 3) 0 = rest.getD n 0 := by
  rw [show n + 3 = (n + 2) + 1 by ring, List.getD_cons_succ,
    show n + 2 = (n + 1) + 1 by ring, List.getD_cons_succ, List.getD_cons_succ]

theorem decodeFrame_get : ∀ (buf : List ℕ) (i : ℕ),
    (decodeFrame buf).get? i
      = if 3*i + 2 < buf.length then
          some (colourHex (buf.getD (3*i) 0) (buf.getD (3*i+1) 0) (buf.getD (3*i+2) 0))
        else none
  | [], i => by
    have h : ¬ (3*i + 2 < ([] : List ℕ).length) := by simp
    simp [decodeFrame, h]
  | [x], i => by
    have h : ¬ (3*i + 2 < [x].length) := by
      simp only [List.length_cons, List.length_nil]
      omega
    have hd : decodeFrame [x] = [] := rfl
    simp [hd, h]
  | [x, y], i => by
    have h : ¬ (3*i + 2 < [x, y].length) := by
      simp only [List.length_cons, List.length_nil]
      omega
    have hd : decodeFrame [x, y] = [] := rfl
    simp [hd, h]
  | r :: g :: b :: rest, 0 => by
    simp only [decodeFrame, List.get?_cons_zero, List.length_cons]
    rw [if_pos (by omega)]
    norm_num
  | r :: g :: b :: rest, i + 1 => by
    rw [show (3*(i+1)+2 : ℕ) = (3*i+2) + 3 by ring,
        show (3*(i+1)+1 : ℕ) = (3*i+1) + 3 by ring,
        show (3*(i+1) : ℕ) = (3*i) + 3 by ring]
    rw [getD_cons3, getD_cons3, getD_cons3]
    simp only [decodeFrame, List.get?_cons_succ, List.length_cons]
    rw [decodeFrame_get rest i]
    have hiff : ((3*i+2) + 3 < rest.length + 1 + 1 + 1) ↔ (3*i + 2 < rest.length) := by omega
    simp only [hiff]

theorem ConfigEq_refl (s : CoordState) : ConfigEq s s :=
  ⟨rfl, rfl, rfl, rfl, rfl, rfl, rfl, rfl, rfl, rfl, rfl, rfl⟩

theorem ConfigEq_trans {a b c : CoordState} (h1 : ConfigEq a b) (h2 : ConfigEq b c) :
    ConfigEq a c := by
  obtain ⟨x1, x2, x3, x4, x5, x6, x7, x8, x9, x10, x11, x12⟩ := h1
  obtain ⟨y1, y2, y3, y4, y5, y6, y7, y8, y9, y10, y11, y12⟩ := h2
  exact ⟨x1.trans y1, x2.trans y2, x3.trans y3, x4.trans y4, x5.trans y5, x6.trans y6,
    x7.trans y7, x8.trans y8, x9.trans y9, x10.trans y10, x11.trans y11, x12.trans y12⟩

theorem foldl_preserve {α β : Type} (P : β → Prop) (f : β → α → β)
    (hstep : ∀ b a, P b → P (f b a)) : ∀ (l : List α) (b : β), P b → P (l.foldl f b)
  | [], _, hb => hb
  | a :: l, b, hb => foldl_preserve P f hstep l (f b a) (hstep b a hb)

theorem dispatch_groups_signal_preserved (now : ℚ) (force : Bool) (s : CoordState) :
    (dispatch_groups_signal now force s).1.frame = s.frame
    ∧ (dispatch_groups_signal now force s).1.led_count = s.led_count
    ∧ ConfigEq (dispatch_groups_signal now force s).1 s := by
  unfold dispatch_groups_signal
  by_cases h : force = true ∨ s.sync_interval ≤ 0 ∨ s.sync_interval ≤ now - s.last_groups_signal
  · rw [if_pos h]
    exact ⟨rfl, rfl, ConfigEq_refl s⟩
  · rw [if_neg h]
    exact ⟨rfl, rfl, ConfigEq_refl s⟩

theorem process_listen_groups_preserved (mono : ℚ) (rnd : ℕ) (colours : List String)
    (s : CoordState) :
    (process_listen_groups mono rnd colours s).1.frame = s.frame
    ∧ (process_listen_groups mono rnd colours s).1.led_count = s.led_count
    ∧ ConfigEq (process_listen_groups mono rnd colours s).1 s := by
  unfold process_listen_groups
  by_cases h1 : ¬(s.mode = MODE_LISTEN) ∨ s.groups = []
  · rw [if_pos h1]
    exact ⟨rfl, rfl, ConfigEq_refl s⟩
  · rw [if_neg h1]
    by_cases h2 : colours = []
    · rw [if_pos h2]
      exact ⟨rfl, rfl, ConfigEq_refl s⟩
    · rw [if_neg h2]
      dsimp only
      have hfold := foldl_preserve
        (fun acc : CoordState × List (String × RGB) =>
          acc.1.frame = s.frame ∧ acc.1.led_count = s.led_count ∧ ConfigEq acc.1 s)
        (listen_step s.calib rnd s.sync_interval mono (colours.map hex_to_rgb))
        (fun b a hb => hb)
        s.groups.enum (s, []) ⟨rfl, rfl, ConfigEq_refl s⟩
      obtain ⟨hf, hl, hc⟩ := hfold
      obtain ⟨df, dl, dc⟩ := dispatch_groups_signal_preserved mono false
        (s.groups.enum.foldl
          (listen_step s.calib rnd s.sync_interval mono (colours.map hex_to_rgb)) (s, [])).1
      exact ⟨df.trans hf, dl.trans hl, ConfigEq_trans dc hc⟩

/-- Claim C2, amended: a nonempty payload whose length is a multiple of 3
    is decoded 3 bytes per LED in order, replaces the stored frame (fresh
    timestamp, `led_count = length/3`) and fires the frame signal; a
    payload whose length is not a multiple of 3 — and likewise the empty
    payload, which the claim as stated wrongly includes — is dropped with
    no state mutation and no signal. -/
theorem C2_frame_ingestion (ts : ℕ) (mono : ℚ) (rnd : ℕ) (payload : List ℕ) (s : CoordState) :
    (payload ≠ [] → payload.length % 3 = 0 →
      (async_handle_frame ts mono rnd payload s).2.1 = true
      ∧ (async_handle_frame ts mono rnd payload s).1.frame
          = some { colours := decodeFrame payload, updated_at := ts,
                   payload_len := payload.length, led_count := (decodeFrame payload).length }
      ∧ (decodeFrame payload).length = payload.length / 3
      ∧ (∀ i, i < payload.length / 3 →
          (decodeFrame payload).get? i
            = some (colourHex (payload.getD (3*i) 0) (payload.getD (3*i+1) 0)
                (payload.getD (3*i+2) 0))))
    ∧ (¬ payload.length % 3 = 0 →
        async_handle_frame ts mono rnd payload s = (s, false, []))
    ∧ (payload = [] →
        async_handle_frame ts mono rnd payload s = (s, false, [])) := by
  refine ⟨?_, ?_, ?_⟩
  · intro hne hmod
    unfold async_handle_frame
    rw [if_neg hne, if_neg (not_not.mpr hmod)]
    dsimp only
    obtain ⟨hf, _, _⟩ := process_listen_groups_preserved mono rnd (decodeFrame payload)
      { s with
        frame := some { colours := decodeFrame payload, updated_at := ts,
                        payload_len := payload.length,
                        led_count := (decodeFrame payload).length },
        led_count := ((decodeFrame payload).length : ℤ) }
    refine ⟨rfl, ?_, decodeFrame_length payload, ?_⟩
    · rw [hf]
    · intro i hi
      rw [decodeFrame_get payload i, if_pos (by omega)]
  · intro hmod
    unfold async_handle_frame
    by_cases hne : payload = []
    · rw [if_pos hne]
    · rw [if_neg hne, if_pos (by simpa using hmod)]
  · intro hne
    unfold async_handle_frame
    rw [if_pos hne]

/-- Witness for C2 at payload `[1, 2, 3]`: signal fired and frame stored. -/
theorem C2_frame_ingestion_witness :
    (async_handle_frame 0 0 0 [1, 2, 3] sampleState).2.1 = true
    ∧ (async_handle_frame 0 0 0 [1, 2, 3] sampleState).1.frame
        = some { colours := decodeFrame [1, 2, 3], updated_at := 0,
                 payload_len := ([1, 2, 3] : List ℕ).length,
                 led_count := (decodeFrame [1, 2, 3]).length }
    ∧ (decodeFrame [1, 2, 3]).length = ([1, 2, 3] : List ℕ).length / 3 := by
  have h := (C2_frame_ingestion 0 0 0 [1, 2, 3] sampleState).1 (by decide) (by decide)
  exact ⟨h.1, h.2.1, h.2.2.1⟩

/-- Counterexample to C2 as stated: the empty payload has length `0`,
    a multiple of 3, yet the handler drops it — no frame is stored and no
    signal fires, where the claim requires a stored frame and a signal. -/
theorem C2_frame_ingestion_counterexample :
    async_handle_frame 0 0 0 [] sampleState = (sampleState, false, [])
    ∧ sampleState.frame = none
    ∧ (([] : List ℕ).length % 3 = 0) := ⟨rfl, rfl, rfl⟩

/-- Claim C3, amended: handling a frame leaves every configuration value
    unchanged except the stored LED count, which is overwritten with the
    incoming frame's LED count (`payload length / 3`). -/
theorem C3_config_immutable (ts : ℕ) (mono : ℚ) (rnd : ℕ) (payload : List ℕ) (s : CoordState) :
    ConfigEq (async_handle_frame ts mono rnd payload s).1 s
    ∧ (payload ≠ [] → payload.length % 3 = 0 →
        (async_handle_frame ts mono rnd payload s).1.led_count
          = ((payload.length / 3 : ℕ) : ℤ)) := by
  constructor
  · unfold async_handle_frame
    by_cases hne : payload = []
    · rw [if_pos hne]
      exact ConfigEq_refl s
    · rw [if_neg hne]
      by_cases hmod : ¬ (payload.length % 3 = 0)
      · rw [if_pos hmod]
        exact ConfigEq_refl s
      · rw [if_neg hmod]
        dsimp only
        obtain ⟨_, _, hc⟩ := process_listen_groups_preserved mono rnd (decodeFrame payload)
          { s with
            frame := some { colours := decodeFrame payload, updated_at := ts,
                            payload_len := payload.length,
                            led_count := (decodeFrame payload).length },
            led_count := ((decodeFrame payload).length : ℤ) }
        exact hc
  · intro hne hmod
    unfold async_handle_frame
    rw [if_neg hne, if_neg (not_not.mpr hmod)]
    dsimp only
    obtain ⟨_, hl, _⟩ := process_listen_groups_preserved mono rnd (decodeFrame payload)
      { s with
        frame := some { colours := decodeFrame payload, updated_at := ts,
                        payload_len := payload.length,
                        led_count := (decodeFrame payload).length },
        led_count := ((decodeFrame payload).length : ℤ) }
    rw [hl]
    simp only [decodeFrame_length payload]

/-- Witness for C3: the concrete handler run leaves the topics, mode and
    calibration of `sampleState` unchanged and sets the LED count to 1. -/
theorem C3_config_immutable_witness :
    ConfigEq (async_handle_frame 0 0 0 [1, 2, 3] sampleState).1 sampleState
    ∧ (async_handle_frame 0 0 0 [1, 2, 3] sampleState).1.led_count
        = ((([1, 2, 3] : List ℕ).length / 3 : ℕ) : ℤ) :=
  ⟨(C3_config_immutable 0 0 0 [1, 2, 3] sampleState).1,
   (C3_config_immutable 0 0 0 [1, 2, 3] sampleState).2 (by decide) (by decide)⟩

/-- Counterexample to C3 as stated: `sampleState` is configured with
    `led_count = 48`, yet handling a one-LED frame overwrites the stored
    LED count with `1` — the configured LED count is not immutable. -/
theorem C3_config_immutable_counterexample :
    sampleState.led_count = 48
    ∧ (async_handle_frame 0 0 0 [1, 2, 3] sampleState).1.led_count = 1 := ⟨rfl, by decide⟩

/-! ## Claim C6 -/

/-- Claim C6: after the temperature shift and HSV gain stage
    (`pre_cutoff`), each channel strictly below its per-channel cutoff is
    forced to 0; then, if the overall brightness cutoff is non-zero and
    the maximum of the (possibly zeroed) channels is strictly below it,
    the result is exactly `(0,0,0)`, otherwise the per-channel-cutoff
    result stands; in particular with `brightness_cutoff = 50` and all
    channels computing below 50 the output is exactly `(0,0,0)`. -/
theorem C6_cutoff_stages (st : CalibSettings) (rgb : RGB) :
    (apply_calibration st rgb
      = if st.brightness_cutoff ≠ 0 ∧
            max (if (pre_cutoff st rgb).1 < st.cutoff_red then 0 else (pre_cutoff st rgb).1)
              (max (if (pre_cutoff st rgb).2.1 < st.cutoff_green then 0
                      else (pre_cutoff st rgb).2.1)
                (if (pre_cutoff st rgb).2.2 < st.cutoff_blue then 0
                  else (pre_cutoff st rgb).2.2))
              < st.brightness_cutoff
        then (0, 0, 0)
        else (if (pre_cutoff st rgb).1 < st.cutoff_red then 0 else (pre_cutoff st rgb).1,
              if (pre_cutoff st rgb).2.1 < st.cutoff_green then 0 else (pre_cutoff st rgb).2.1,
              if (pre_cutoff st rgb).2.2 < st.cutoff_blue then 0 else (pre_cutoff st rgb).2.2))
    ∧ (st.brightness_cutoff = 50 →
        (if (pre_cutoff st rgb).1 < st.cutoff_red then 0 else (pre_cutoff st rgb).1) < 50 →
        (if (pre_cutoff st rgb).2.1 < st.cutoff_green then 0 else (pre_cutoff st rgb).2.1) < 50 →
        (if (pre_cutoff st rgb).2.2 < st.cutoff_blue then 0 else (pre_cutoff st rgb).2.2) < 50 →
        apply_calibration st rgb = (0, 0, 0)) := by
  have hshape : apply_calibration st rgb
      = if st.brightness_cutoff ≠ 0 ∧
            max (if (pre_cutoff st rgb).1 < st.cutoff_red then 0 else (pre_cutoff st rgb).1)
              (max (if (pre_cutoff st rgb).2.1 < st.cutoff_green then 0
                      else (pre_cutoff st rgb).2.1)
                (if (pre_cutoff st rgb).2.2 < st.cutoff_blue then 0
                  else (pre_cutoff st rgb).2.2))
              < st.brightness_cutoff
        then (0, 0, 0)
        else (if (pre_cutoff st rgb).1 < st.cutoff_red then 0 else (pre_cutoff st rgb).1,
              if (pre_cutoff st rgb).2.1 < st.cutoff_green then 0 else (pre_cutoff st rgb).2.1,
              if (pre_cutoff st rgb).2.2 < st.cutoff_blue then 0
                else (pre_cutoff st rgb).2.2) := rfl
  refine ⟨hshape, fun hbc h1 h2 h3 => ?_⟩
  rw [hshape, if_pos ?_]
  refine ⟨by rw [hbc]; norm_num, ?_⟩
  rw [hbc]
  exact max_lt h1 (max_lt h2 h3)

/-- Witness for C6: with the default calibration but `brightness_cutoff =
    50`, the input `(10, 20, 30)` — whose post-gain channels are
    `(10, 20, 30)`, all below 50 — calibrates to exactly `(0, 0, 0)`. -/
theorem C6_cutoff_stages_witness :
    apply_calibration cutoff50Calib ((10, 20, 30) : RGB) = (0, 0, 0) := by
  have hp : pre_cutoff cutoff50Calib ((10, 20, 30) : RGB) = (10, 20, 30) := by
    norm_num [pre_cutoff, temp_stage, color_RGB_to_hsv, color_hsv_to_RGB, rgb_to_hsv,
      hsv_to_rgb, pyRound3, pyRound, pyTrunc, pyMod1, clamp255, cutoff50Calib, identityCalib]
  have h := (C6_cutoff_stages cutoff50Calib ((10, 20, 30) : RGB)).2 rfl
  rw [hp] at h
  exact h (by norm_num [cutoff50Calib, identityCalib]) (by norm_num [cutoff50Calib, identityCalib])
    (by norm_num [cutoff50Calib, identityCalib])
